import Mathlib

/-!
Hyper-V guest shutdown integration component

A shallow embedding of `HyperVShutdown.cpp` (`handlePacket`, `handleShutdown`,
`performShutdown` and the static table `shutdownVersions`).

* The message buffer is a record of the fields the code reads and writes.
* The declarations that live in headers outside the source tree (wire
  constants, structure layout) are parameters, collected in `Decls`.
* The collaborators (`checkUserClient`, `processNegotiationResponse`) are
  parameters, collected in `Env`.
* Every call that leaves the function (`checkUserClient`, `notifyUserClient`,
  `writeInbandPacket`) and every entry into `performShutdown` is recorded, in
  program order, in a list of `Event`s.  Log calls are not recorded.
-/

namespace HyperVShutdown

/-! ## Data model -/

/-- Modelled from the spec: the type `VMBusICVersion` is declared in a header that is
not part of the source tree; the spec gives it as a pair of 16-bit numbers. -/
structure VMBusICVersion where
  major : Nat
  minor : Nat
deriving DecidableEq, Repr

/-- Modelled from the spec: the type `VMBusICMessageHeader` is declared in a header that
is not part of the source tree; these are the four fields the spec lists, and the only
header fields that `HyperVShutdown.cpp` touches. -/
structure VMBusICMessageHeader where
  type : Nat
  status : Nat
  dataSize : Nat
  flags : Nat
deriving DecidableEq, Repr

/-- Modelled from the spec: the type `VMBusICMessageShutdownData` is declared in a header
that is not part of the source tree: the header followed by `reason`, `timeoutSeconds`
and the shutdown `flags`. -/
structure VMBusICMessageShutdownData where
  header : VMBusICMessageHeader
  reason : Nat
  timeoutSeconds : Nat
  flags : Nat
deriving DecidableEq, Repr

/-- Modelled from the spec: the body of `VMBusICMessageNegotiate` (declared in a header
that is not part of the source tree), as the spec describes the negotiate payload. -/
structure VMBusICMessageNegotiateData where
  offeredFrameworkVersions : List VMBusICVersion
  offeredMessageVersions : List VMBusICVersion
  selectedFrameworkVersion : VMBusICVersion
  selectedMessageVersion : VMBusICVersion
deriving DecidableEq, Repr

/-- Modelled from the spec: the union `VMBusICMessageShutdown` is declared in a header that
is not part of the source tree.  Its views share the header: `shutdown` is the view
`shutdownMsg->shutdown` (header included) and `negotiate` is what the view
`shutdownMsg->negotiate` holds after the header. -/
structure VMBusICMessageShutdown where
  shutdown : VMBusICMessageShutdownData
  negotiate : VMBusICMessageNegotiateData
deriving DecidableEq, Repr

/-- The shared header, `shutdownMsg->header`. -/
def VMBusICMessageShutdown.header (m : VMBusICMessageShutdown) : VMBusICMessageHeader :=
  m.shutdown.header

/-- The assignment `shutdownMsg->header.status = s`. -/
def VMBusICMessageShutdown.setStatus (m : VMBusICMessageShutdown) (s : Nat) :
    VMBusICMessageShutdown :=
  { m with shutdown := { m.shutdown with header := { m.shutdown.header with status := s } } }

/-- The assignment `shutdownMsg->header.flags = f`. -/
def VMBusICMessageShutdown.setFlags (m : VMBusICMessageShutdown) (f : Nat) :
    VMBusICMessageShutdown :=
  { m with shutdown := { m.shutdown with header := { m.shutdown.header with flags := f } } }

/-- The constants and layout facts that `HyperVShutdown.cpp` takes from headers outside
the source tree.  The two distinctness fields are what C++ demands of the `case` labels
of one `switch`. -/
structure Decls where
  kVMBusICMessageTypeNegotiate : Nat
  kVMBusICMessageTypeShutdown : Nat
  kHyperVStatusSuccess : Nat
  kHyperVStatusFail : Nat
  kVMBusICFlagTransaction : Nat
  kVMBusICFlagResponse : Nat
  kVMBusICShutdownFlagsShutdown : Nat
  kVMBusICShutdownFlagsShutdownForced : Nat
  kVMBusICShutdownFlagsRestart : Nat
  kVMBusICShutdownFlagsRestartForced : Nat
  /-- The value of `sizeof (shutdownData->header)`. -/
  sizeofHeader : Nat
  /-- The value of `__offsetof (VMBusICMessageShutdownData, reason)`. -/
  offsetofReason : Nat
  typeLabelsDistinct : kVMBusICMessageTypeNegotiate ≠ kVMBusICMessageTypeShutdown
  flagLabelsDistinct :
    [kVMBusICShutdownFlagsShutdown, kVMBusICShutdownFlagsShutdownForced,
      kVMBusICShutdownFlagsRestart, kVMBusICShutdownFlagsRestartForced].Nodup

/-- Modelled from the spec: the headers that declare these constants are not part of the
source tree.  The layout is the wire layout of the spec (a header of four 4-byte fields,
`reason` immediately after it); the codes are those of the Hyper-V integration protocol. -/
def hvDecls : Decls where
  kVMBusICMessageTypeNegotiate := 0
  kVMBusICMessageTypeShutdown := 3
  kHyperVStatusSuccess := 0
  kHyperVStatusFail := 0x80004005
  kVMBusICFlagTransaction := 1
  kVMBusICFlagResponse := 4
  kVMBusICShutdownFlagsShutdown := 0
  kVMBusICShutdownFlagsShutdownForced := 1
  kVMBusICShutdownFlagsRestart := 2
  kVMBusICShutdownFlagsRestartForced := 3
  sizeofHeader := 16
  offsetofReason := 16
  typeLabelsDistinct := by decide
  flagLabelsDistinct := by decide

/-- The notification tags `performShutdown` passes to `notifyUserClient`. -/
inductive HyperVUserClientNotificationType where
  | kHyperVUserClientNotificationTypePerformShutdown
  | kHyperVUserClientNotificationTypePerformRestart
deriving DecidableEq, Repr

/-- One recorded call. -/
inductive Event where
  /-- A call `_hvDevice->getHvController()->checkUserClient()` and its answer. -/
  | checkUserClient (answer : Bool)
  /-- An entry into `performShutdown` with the given `doShutdown`. -/
  | performShutdown (doShutdown : Bool)
  /-- A call `notifyUserClient (type, nullptr, 0)`. -/
  | notifyUserClient (type : HyperVUserClientNotificationType)
  /-- A call `_hvDevice->writeInbandPacket (buffer, bufferLength, responseRequired)`,
  with the contents of the buffer at the time of the call. -/
  | writeInbandPacket (buffer : VMBusICMessageShutdown) (bufferLength : Nat)
      (responseRequired : Bool)
deriving DecidableEq, Repr

/-- The collaborators of one `handlePacket` call: the answer of the consumer registry and
the negotiator of the base class, which reads and rewrites the message buffer and reports
success. -/
structure Env where
  checkUserClient : Bool
  processNegotiationResponse :
    VMBusICMessageShutdown → List VMBusICVersion → Nat → Bool × VMBusICMessageShutdown

/-! ## The code -/

/-- Modelled from the spec: the constant `kHyperVShutdownVersionV3_2` is declared in a
header that is not part of the source tree; the spec lists it as v3.2. -/
def kHyperVShutdownVersionV3_2 : VMBusICVersion := ⟨3, 2⟩

/-- Modelled from the spec: the constant `kHyperVShutdownVersionV3_1` is declared in a
header that is not part of the source tree; the spec lists it as v3.1. -/
def kHyperVShutdownVersionV3_1 : VMBusICVersion := ⟨3, 1⟩

/-- Modelled from the spec: the constant `kHyperVShutdownVersionV3_0` is declared in a
header that is not part of the source tree; the spec lists it as v3.0. -/
def kHyperVShutdownVersionV3_0 : VMBusICVersion := ⟨3, 0⟩

/-- Modelled from the spec: the constant `kHyperVShutdownVersionV1_0` is declared in a
header that is not part of the source tree; the spec lists it as v1.0. -/
def kHyperVShutdownVersionV1_0 : VMBusICVersion := ⟨1, 0⟩

/-- The static table `shutdownVersions`. -/
def shutdownVersions : List VMBusICVersion :=
  [kHyperVShutdownVersionV3_2, kHyperVShutdownVersionV3_1, kHyperVShutdownVersionV3_0,
    kHyperVShutdownVersionV1_0]

/-- The method `HyperVShutdown::performShutdown`: its return value and the calls it makes. -/
def performShutdown (K : Decls) (shutdownData : VMBusICMessageShutdownData)
    (doShutdown : Bool) : Bool × List Event :=
  if shutdownData.flags = K.kVMBusICShutdownFlagsShutdown
      ∨ shutdownData.flags = K.kVMBusICShutdownFlagsShutdownForced then
    (true, Event.performShutdown doShutdown ::
      (if doShutdown then
        [Event.notifyUserClient .kHyperVUserClientNotificationTypePerformShutdown]
      else []))
  else if shutdownData.flags = K.kVMBusICShutdownFlagsRestart
      ∨ shutdownData.flags = K.kVMBusICShutdownFlagsRestartForced then
    (true, Event.performShutdown doShutdown ::
      (if doShutdown then
        [Event.notifyUserClient .kHyperVUserClientNotificationTypePerformRestart]
      else []))
  else
    (false, [Event.performShutdown doShutdown])

/-- The method `HyperVShutdown::handleShutdown`: its return value, the buffer it leaves and
the calls it makes.  `packetSize` is a `UInt32`. -/
def handleShutdown (K : Decls) (E : Env) (shutdownData : VMBusICMessageShutdownData) :
    Bool × VMBusICMessageShutdownData × List Event :=
  let packetSize := (shutdownData.header.dataSize + K.sizeofHeader) % 2 ^ 32
  if packetSize < K.offsetofReason then
    (false, shutdownData, [])
  else
    let result := E.checkUserClient
    let r := if result then performShutdown K shutdownData false else (false, [])
    let status := if r.1 then K.kHyperVStatusSuccess else K.kHyperVStatusFail
    (r.1, { shutdownData with header := { shutdownData.header with status := status } },
      Event.checkUserClient result :: r.2)

set_option linter.unusedVariables false in
/-- The method `HyperVShutdown::handlePacket`: the buffer it leaves and the calls it makes.
`pktHeader` is the raw transport header; the body never reads it, nor
`pktHeaderLength`. -/
def handlePacket (K : Decls) (E : Env) (pktHeader : List Nat) (pktHeaderLength : Nat)
    (pktData : VMBusICMessageShutdown) (pktDataLength : Nat) :
    VMBusICMessageShutdown × List Event :=
  let shutdownMsg := pktData
  let routed : Bool × VMBusICMessageShutdown × List Event :=
    if shutdownMsg.header.type = K.kVMBusICMessageTypeNegotiate then
      let n := E.processNegotiationResponse shutdownMsg shutdownVersions shutdownVersions.length
      if !n.1 then (false, n.2.setStatus K.kHyperVStatusFail, [])
      else (false, n.2, [])
    else if shutdownMsg.header.type = K.kVMBusICMessageTypeShutdown then
      let h := handleShutdown K E shutdownMsg.shutdown
      (h.1, { shutdownMsg with shutdown := h.2.1 }, h.2.2)
    else
      (false, shutdownMsg.setStatus K.kHyperVStatusFail, [])
  let doShutdown := routed.1
  let shutdownMsg := routed.2.1.setFlags (K.kVMBusICFlagTransaction ||| K.kVMBusICFlagResponse)
  let sent := [Event.writeInbandPacket shutdownMsg pktDataLength false]
  let after := if doShutdown then (performShutdown K shutdownMsg.shutdown true).2 else []
  (shutdownMsg, routed.2.2 ++ sent ++ after)

/-! ## Reading a trace -/

/-- The responses transmitted, in order: buffer contents and length of each
`writeInbandPacket`. -/
def responses (t : List Event) : List (VMBusICMessageShutdown × Nat) :=
  t.filterMap fun e =>
    match e with
    | .writeInbandPacket b l _ => some (b, l)
    | _ => none

/-- The consumer notifications sent, in order. -/
def notifications (t : List Event) : List HyperVUserClientNotificationType :=
  t.filterMap fun e =>
    match e with
    | .notifyUserClient a => some a
    | _ => none

/-- The answers of the consumer registry, one per query, in order. -/
def registryQueries (t : List Event) : List Bool :=
  t.filterMap fun e =>
    match e with
    | .checkUserClient a => some a
    | _ => none

/-- The entries into `performShutdown`, in order, each with its `doShutdown`. -/
def executorCalls (t : List Event) : List Bool :=
  t.filterMap fun e =>
    match e with
    | .performShutdown c => some c
    | _ => none

/-- The predicate `isRecognized`: the flags value is one of the four `case` labels of `performShutdown`. -/
def isRecognized (K : Decls) (f : Nat) : Prop :=
  f = K.kVMBusICShutdownFlagsShutdown ∨ f = K.kVMBusICShutdownFlagsShutdownForced
    ∨ f = K.kVMBusICShutdownFlagsRestart ∨ f = K.kVMBusICShutdownFlagsRestartForced

instance (K : Decls) (f : Nat) : Decidable (isRecognized K f) := by
  unfold isRecognized; infer_instance

/-- The structural size check of `handleShutdown` passes. -/
def sizeCheckPasses (K : Decls) (shutdownData : VMBusICMessageShutdownData) : Prop :=
  ¬ (shutdownData.header.dataSize + K.sizeofHeader) % 2 ^ 32 < K.offsetofReason

instance (K : Decls) (d : VMBusICMessageShutdownData) : Decidable (sizeCheckPasses K d) := by
  unfold sizeCheckPasses; infer_instance

/-- The status carried by each transmitted response, in order. -/
def responseStatuses (t : List Event) : List Nat :=
  (responses t).map fun r => r.1.header.status

/-- The type code carried by each transmitted response, in order. -/
def responseTypes (t : List Event) : List Nat :=
  (responses t).map fun r => r.1.header.type

/-- The packet is a shutdown request that `handlePacket` admits: the type is
`kVMBusICMessageTypeShutdown`, the size check passes, the registry reports an attached agent
and the flags are recognized. -/
def shutdownAdmitted (K : Decls) (E : Env) (pktData : VMBusICMessageShutdown) : Prop :=
  pktData.header.type = K.kVMBusICMessageTypeShutdown ∧ sizeCheckPasses K pktData.shutdown
    ∧ E.checkUserClient = true ∧ isRecognized K pktData.shutdown.flags

instance (K : Decls) (E : Env) (m : VMBusICMessageShutdown) :
    Decidable (shutdownAdmitted K E m) := by
  unfold shutdownAdmitted; infer_instance

/-- A placeholder negotiator that reports failure and leaves the buffer as it is. -/
def refusingNegotiator (m : VMBusICMessageShutdown) (_versions : List VMBusICVersion)
    (_count : Nat) : Bool × VMBusICMessageShutdown :=
  (false, m)

/-- Collaborators with a consumer attached. -/
def attachedEnv : Env := ⟨true, refusingNegotiator⟩

/-- Collaborators with no consumer attached. -/
def detachedEnv : Env := ⟨false, refusingNegotiator⟩

/-- A shutdown request under `hvDecls`: type 3, inbound status 0, the given `dataSize` and
shutdown `flags`, no reason, no timeout. -/
def shutdownRequest (dataSize flags : Nat) : VMBusICMessageShutdown :=
  ⟨⟨⟨3, 0, dataSize, 1⟩, 0, 0, flags⟩, ⟨[], [], ⟨0, 0⟩, ⟨0, 0⟩⟩⟩

/-- A packet under `hvDecls` whose type code 7 is neither Negotiate (0) nor Shutdown (3). -/
def unknownTypePacket : VMBusICMessageShutdown :=
  ⟨⟨⟨7, 0, 12, 1⟩, 0, 0, 0⟩, ⟨[], [], ⟨0, 0⟩, ⟨0, 0⟩⟩⟩

/-- A negotiate packet under `hvDecls` (type 0) in which the peer offers v1.0 and v3.0. -/
def negotiatePacket : VMBusICMessageShutdown :=
  ⟨⟨⟨0, 0, 12, 1⟩, 0, 0, 0⟩, ⟨[⟨3, 0⟩], [⟨1, 0⟩, ⟨3, 0⟩], ⟨0, 0⟩, ⟨0, 0⟩⟩⟩

/-- Modelled from the spec: the method `processNegotiationResponse` belongs to the base
class, which is not part of the source tree.  This is the selection the spec describes for
it: iterate the local supported list in its declared order, accept a local version if it
also appears in the set offered by the peer, select the first such match, and fail if no
local version appears in the offered set. -/
def negotiateVersion :
    List VMBusICVersion → List VMBusICVersion → Option VMBusICVersion
  | [], _ => none
  | v :: rest, offered => if v ∈ offered then some v else negotiateVersion rest offered

/-- Modelled from the spec: the header that declares `VMBusICVersion` is not part of the
source tree; the spec orders versions by comparing them as a 32-bit value with the major
number in the high 16 bits. -/
def VMBusICVersion.toUInt32 (v : VMBusICVersion) : Nat :=
  (v.major % 2 ^ 16) * 2 ^ 16 + v.minor % 2 ^ 16

/-- Modelled from the spec: the header that declares `VMBusICMessageShutdownData` is not
part of the source tree; in the wire layout of the spec `reason`, `timeoutSeconds` and
`flags` are 4 bytes each, in that order, so `flags` ends 12 bytes after the offset of
`reason`. -/
def offsetofFlagsEnd (K : Decls) : Nat :=
  K.offsetofReason + 4 + 4 + 4

/-! ## Shared lemmas -/

theorem flags_distinct (K : Decls) :
    K.kVMBusICShutdownFlagsShutdown ≠ K.kVMBusICShutdownFlagsRestart
    ∧ K.kVMBusICShutdownFlagsShutdown ≠ K.kVMBusICShutdownFlagsRestartForced
    ∧ K.kVMBusICShutdownFlagsShutdownForced ≠ K.kVMBusICShutdownFlagsRestart
    ∧ K.kVMBusICShutdownFlagsShutdownForced ≠ K.kVMBusICShutdownFlagsRestartForced := by
  have h := K.flagLabelsDistinct
  simp only [List.nodup_cons, List.mem_cons, List.mem_singleton, not_or] at h
  tauto

theorem performShutdown_of_shutdown (K : Decls) (d : VMBusICMessageShutdownData) (c : Bool)
    (h : d.flags = K.kVMBusICShutdownFlagsShutdown
      ∨ d.flags = K.kVMBusICShutdownFlagsShutdownForced) :
    performShutdown K d c = (true, Event.performShutdown c ::
      (if c then [Event.notifyUserClient .kHyperVUserClientNotificationTypePerformShutdown]
       else [])) := by
  unfold performShutdown
  rw [if_pos h]

theorem performShutdown_of_restart (K : Decls) (d : VMBusICMessageShutdownData) (c : Bool)
    (h : d.flags = K.kVMBusICShutdownFlagsRestart
      ∨ d.flags = K.kVMBusICShutdownFlagsRestartForced) :
    performShutdown K d c = (true, Event.performShutdown c ::
      (if c then [Event.notifyUserClient .kHyperVUserClientNotificationTypePerformRestart]
       else [])) := by
  have hd := flags_distinct K
  have hn : ¬ (d.flags = K.kVMBusICShutdownFlagsShutdown
      ∨ d.flags = K.kVMBusICShutdownFlagsShutdownForced) := by
    rintro (h1 | h1) <;> rcases h with h2 | h2 <;> rw [h1] at h2 <;> tauto
  unfold performShutdown
  rw [if_neg hn, if_pos h]

theorem performShutdown_of_unrecognized (K : Decls) (d : VMBusICMessageShutdownData)
    (c : Bool) (h : ¬ isRecognized K d.flags) :
    performShutdown K d c = (false, [Event.performShutdown c]) := by
  unfold isRecognized at h
  have h1 : ¬ (d.flags = K.kVMBusICShutdownFlagsShutdown
      ∨ d.flags = K.kVMBusICShutdownFlagsShutdownForced) := by tauto
  have h2 : ¬ (d.flags = K.kVMBusICShutdownFlagsRestart
      ∨ d.flags = K.kVMBusICShutdownFlagsRestartForced) := by tauto
  unfold performShutdown
  rw [if_neg h1, if_neg h2]

theorem isRecognized_cases (K : Decls) (f : Nat) (h : isRecognized K f) :
    (f = K.kVMBusICShutdownFlagsShutdown ∨ f = K.kVMBusICShutdownFlagsShutdownForced)
    ∨ (f = K.kVMBusICShutdownFlagsRestart ∨ f = K.kVMBusICShutdownFlagsRestartForced) := by
  unfold isRecognized at h
  tauto

theorem handleShutdown_of_short (K : Decls) (E : Env) (d : VMBusICMessageShutdownData)
    (h : ¬ sizeCheckPasses K d) : handleShutdown K E d = (false, d, []) := by
  unfold sizeCheckPasses at h
  unfold handleShutdown
  simp only
  rw [if_pos (not_not.mp h)]

theorem handleShutdown_of_detached (K : Decls) (E : Env) (d : VMBusICMessageShutdownData)
    (h : sizeCheckPasses K d) (hE : E.checkUserClient = false) :
    handleShutdown K E d =
      (false, { d with header := { d.header with status := K.kHyperVStatusFail } },
        [Event.checkUserClient false]) := by
  unfold sizeCheckPasses at h
  unfold handleShutdown
  simp only
  rw [if_neg h]
  simp [hE]

theorem handleShutdown_of_attached (K : Decls) (E : Env) (d : VMBusICMessageShutdownData)
    (h : sizeCheckPasses K d) (hE : E.checkUserClient = true) :
    handleShutdown K E d =
      ((performShutdown K d false).1,
        { d with header := { d.header with status :=
            if (performShutdown K d false).1 then K.kHyperVStatusSuccess
            else K.kHyperVStatusFail } },
        Event.checkUserClient true :: (performShutdown K d false).2) := by
  unfold sizeCheckPasses at h
  unfold handleShutdown
  simp only
  rw [if_neg h]
  simp [hE]

theorem performShutdown_congr (K : Decls) (d d' : VMBusICMessageShutdownData) (c : Bool)
    (h : d'.flags = d.flags) : performShutdown K d' c = performShutdown K d c := by
  unfold performShutdown
  rw [h]

theorem handleShutdown_flags (K : Decls) (E : Env) (d : VMBusICMessageShutdownData) :
    (handleShutdown K E d).2.1.flags = d.flags := by
  unfold handleShutdown
  simp only
  split <;> rfl

theorem handlePacket_of_negotiate (K : Decls) (E : Env) (pktHeader : List Nat)
    (pktHeaderLength : Nat) (pktData : VMBusICMessageShutdown) (pktDataLength : Nat)
    (ht : pktData.header.type = K.kVMBusICMessageTypeNegotiate) :
    handlePacket K E pktHeader pktHeaderLength pktData pktDataLength =
      (((if (E.processNegotiationResponse pktData shutdownVersions shutdownVersions.length).1
          then (E.processNegotiationResponse pktData shutdownVersions shutdownVersions.length).2
          else (E.processNegotiationResponse pktData shutdownVersions
            shutdownVersions.length).2.setStatus K.kHyperVStatusFail).setFlags
          (K.kVMBusICFlagTransaction ||| K.kVMBusICFlagResponse)),
       [Event.writeInbandPacket
          ((if (E.processNegotiationResponse pktData shutdownVersions shutdownVersions.length).1
          then (E.processNegotiationResponse pktData shutdownVersions shutdownVersions.length).2
          else (E.processNegotiationResponse pktData shutdownVersions
            shutdownVersions.length).2.setStatus K.kHyperVStatusFail).setFlags
          (K.kVMBusICFlagTransaction ||| K.kVMBusICFlagResponse)) pktDataLength false]) := by
  unfold handlePacket
  simp only [if_pos ht]
  cases (E.processNegotiationResponse pktData shutdownVersions shutdownVersions.length).1 <;>
    simp

theorem handlePacket_of_shutdown (K : Decls) (E : Env) (pktHeader : List Nat)
    (pktHeaderLength : Nat) (pktData : VMBusICMessageShutdown) (pktDataLength : Nat)
    (ht : pktData.header.type = K.kVMBusICMessageTypeShutdown) :
    handlePacket K E pktHeader pktHeaderLength pktData pktDataLength =
      (({ pktData with shutdown := (handleShutdown K E pktData.shutdown).2.1 } :
          VMBusICMessageShutdown).setFlags
          (K.kVMBusICFlagTransaction ||| K.kVMBusICFlagResponse),
       (handleShutdown K E pktData.shutdown).2.2 ++
        [Event.writeInbandPacket
          (({ pktData with shutdown := (handleShutdown K E pktData.shutdown).2.1 } :
          VMBusICMessageShutdown).setFlags
          (K.kVMBusICFlagTransaction ||| K.kVMBusICFlagResponse)) pktDataLength false] ++
        (if (handleShutdown K E pktData.shutdown).1
          then (performShutdown K pktData.shutdown true).2 else [])) := by
  have hn : ¬ pktData.header.type = K.kVMBusICMessageTypeNegotiate := by
    rw [ht]; exact fun h => K.typeLabelsDistinct h.symm
  have hc : performShutdown K
      (({ pktData with shutdown := (handleShutdown K E pktData.shutdown).2.1 } :
          VMBusICMessageShutdown).setFlags
          (K.kVMBusICFlagTransaction ||| K.kVMBusICFlagResponse)).shutdown true
      = performShutdown K pktData.shutdown true :=
    performShutdown_congr K _ _ true (handleShutdown_flags K E pktData.shutdown)
  unfold handlePacket
  simp only [if_neg hn, if_pos ht]
  rw [hc]

theorem handlePacket_of_unknown (K : Decls) (E : Env) (pktHeader : List Nat)
    (pktHeaderLength : Nat) (pktData : VMBusICMessageShutdown) (pktDataLength : Nat)
    (hn : pktData.header.type ≠ K.kVMBusICMessageTypeNegotiate)
    (hs : pktData.header.type ≠ K.kVMBusICMessageTypeShutdown) :
    handlePacket K E pktHeader pktHeaderLength pktData pktDataLength =
      ((pktData.setStatus K.kHyperVStatusFail).setFlags
          (K.kVMBusICFlagTransaction ||| K.kVMBusICFlagResponse),
       [Event.writeInbandPacket ((pktData.setStatus K.kHyperVStatusFail).setFlags
          (K.kVMBusICFlagTransaction ||| K.kVMBusICFlagResponse)) pktDataLength false]) := by
  unfold handlePacket
  simp only [if_neg hn, if_neg hs]
  simp

theorem setFlags_header_flags (m : VMBusICMessageShutdown) (f : Nat) :
    (m.setFlags f).header.flags = f := rfl

theorem setFlags_header_status (m : VMBusICMessageShutdown) (f : Nat) :
    (m.setFlags f).header.status = m.header.status := rfl

theorem setFlags_header_type (m : VMBusICMessageShutdown) (f : Nat) :
    (m.setFlags f).header.type = m.header.type := rfl

theorem setStatus_header_status (m : VMBusICMessageShutdown) (s : Nat) :
    (m.setStatus s).header.status = s := rfl

theorem setStatus_header_type (m : VMBusICMessageShutdown) (s : Nat) :
    (m.setStatus s).header.type = m.header.type := rfl

/-- The calls `handleShutdown` makes contain no transmission and no notification. -/
theorem handleShutdown_quiet (K : Decls) (E : Env) (d : VMBusICMessageShutdownData) :
    responses (handleShutdown K E d).2.2 = []
    ∧ notifications (handleShutdown K E d).2.2 = [] := by
  by_cases hs : sizeCheckPasses K d
  · cases hE : E.checkUserClient
    · rw [handleShutdown_of_detached K E d hs hE]
      simp [responses, notifications]
    · rw [handleShutdown_of_attached K E d hs hE]
      by_cases hr : isRecognized K d.flags
      · rcases isRecognized_cases K d.flags hr with h | h
        · rw [performShutdown_of_shutdown K d false h]
          simp [responses, notifications]
        · rw [performShutdown_of_restart K d false h]
          simp [responses, notifications]
      · rw [performShutdown_of_unrecognized K d false hr]
        simp [responses, notifications]
  · rw [handleShutdown_of_short K E d hs]
    simp [responses, notifications]

/-- The calls of a commit run of `performShutdown` contain no transmission. -/
theorem performShutdown_no_response (K : Decls) (d : VMBusICMessageShutdownData) (c : Bool) :
    responses (performShutdown K d c).2 = [] := by
  by_cases hr : isRecognized K d.flags
  · rcases isRecognized_cases K d.flags hr with h | h
    · rw [performShutdown_of_shutdown K d c h]
      cases c <;> simp [responses]
    · rw [performShutdown_of_restart K d c h]
      cases c <;> simp [responses]
  · rw [performShutdown_of_unrecognized K d c hr]
    simp [responses]

/-! ### The trace of `handlePacket`, path by path -/

theorem handlePacket_shutdown_short (K : Decls) (E : Env) (pktHeader : List Nat)
    (pktHeaderLength : Nat) (pktData : VMBusICMessageShutdown) (pktDataLength : Nat)
    (ht : pktData.header.type = K.kVMBusICMessageTypeShutdown)
    (hs : ¬ sizeCheckPasses K pktData.shutdown) :
    handlePacket K E pktHeader pktHeaderLength pktData pktDataLength =
      (pktData.setFlags (K.kVMBusICFlagTransaction ||| K.kVMBusICFlagResponse),
       [Event.writeInbandPacket
          (pktData.setFlags (K.kVMBusICFlagTransaction ||| K.kVMBusICFlagResponse))
          pktDataLength false]) := by
  rw [handlePacket_of_shutdown K E pktHeader pktHeaderLength pktData pktDataLength ht,
    handleShutdown_of_short K E pktData.shutdown hs]
  simp

theorem handlePacket_shutdown_detached (K : Decls) (E : Env) (pktHeader : List Nat)
    (pktHeaderLength : Nat) (pktData : VMBusICMessageShutdown) (pktDataLength : Nat)
    (ht : pktData.header.type = K.kVMBusICMessageTypeShutdown)
    (hs : sizeCheckPasses K pktData.shutdown) (hE : E.checkUserClient = false) :
    handlePacket K E pktHeader pktHeaderLength pktData pktDataLength =
      ((pktData.setStatus K.kHyperVStatusFail).setFlags
          (K.kVMBusICFlagTransaction ||| K.kVMBusICFlagResponse),
       [Event.checkUserClient false,
        Event.writeInbandPacket ((pktData.setStatus K.kHyperVStatusFail).setFlags
          (K.kVMBusICFlagTransaction ||| K.kVMBusICFlagResponse)) pktDataLength false]) := by
  rw [handlePacket_of_shutdown K E pktHeader pktHeaderLength pktData pktDataLength ht,
    handleShutdown_of_detached K E pktData.shutdown hs hE]
  simp [VMBusICMessageShutdown.setStatus]

theorem handlePacket_shutdown_unrecognized (K : Decls) (E : Env) (pktHeader : List Nat)
    (pktHeaderLength : Nat) (pktData : VMBusICMessageShutdown) (pktDataLength : Nat)
    (ht : pktData.header.type = K.kVMBusICMessageTypeShutdown)
    (hs : sizeCheckPasses K pktData.shutdown) (hE : E.checkUserClient = true)
    (hr : ¬ isRecognized K pktData.shutdown.flags) :
    handlePacket K E pktHeader pktHeaderLength pktData pktDataLength =
      ((pktData.setStatus K.kHyperVStatusFail).setFlags
          (K.kVMBusICFlagTransaction ||| K.kVMBusICFlagResponse),
       [Event.checkUserClient true, Event.performShutdown false,
        Event.writeInbandPacket ((pktData.setStatus K.kHyperVStatusFail).setFlags
          (K.kVMBusICFlagTransaction ||| K.kVMBusICFlagResponse)) pktDataLength false]) := by
  rw [handlePacket_of_shutdown K E pktHeader pktHeaderLength pktData pktDataLength ht,
    handleShutdown_of_attached K E pktData.shutdown hs hE,
    performShutdown_of_unrecognized K pktData.shutdown false hr]
  simp [VMBusICMessageShutdown.setStatus]

theorem handlePacket_shutdown_shutdown (K : Decls) (E : Env) (pktHeader : List Nat)
    (pktHeaderLength : Nat) (pktData : VMBusICMessageShutdown) (pktDataLength : Nat)
    (ht : pktData.header.type = K.kVMBusICMessageTypeShutdown)
    (hs : sizeCheckPasses K pktData.shutdown) (hE : E.checkUserClient = true)
    (hf : pktData.shutdown.flags = K.kVMBusICShutdownFlagsShutdown
      ∨ pktData.shutdown.flags = K.kVMBusICShutdownFlagsShutdownForced) :
    handlePacket K E pktHeader pktHeaderLength pktData pktDataLength =
      ((pktData.setStatus K.kHyperVStatusSuccess).setFlags
          (K.kVMBusICFlagTransaction ||| K.kVMBusICFlagResponse),
       [Event.checkUserClient true, Event.performShutdown false,
        Event.writeInbandPacket ((pktData.setStatus K.kHyperVStatusSuccess).setFlags
          (K.kVMBusICFlagTransaction ||| K.kVMBusICFlagResponse)) pktDataLength false,
        Event.performShutdown true,
        Event.notifyUserClient .kHyperVUserClientNotificationTypePerformShutdown]) := by
  rw [handlePacket_of_shutdown K E pktHeader pktHeaderLength pktData pktDataLength ht,
    handleShutdown_of_attached K E pktData.shutdown hs hE,
    performShutdown_of_shutdown K pktData.shutdown false hf,
    performShutdown_of_shutdown K pktData.shutdown true hf]
  simp [VMBusICMessageShutdown.setStatus]

theorem handlePacket_shutdown_restart (K : Decls) (E : Env) (pktHeader : List Nat)
    (pktHeaderLength : Nat) (pktData : VMBusICMessageShutdown) (pktDataLength : Nat)
    (ht : pktData.header.type = K.kVMBusICMessageTypeShutdown)
    (hs : sizeCheckPasses K pktData.shutdown) (hE : E.checkUserClient = true)
    (hf : pktData.shutdown.flags = K.kVMBusICShutdownFlagsRestart
      ∨ pktData.shutdown.flags = K.kVMBusICShutdownFlagsRestartForced) :
    handlePacket K E pktHeader pktHeaderLength pktData pktDataLength =
      ((pktData.setStatus K.kHyperVStatusSuccess).setFlags
          (K.kVMBusICFlagTransaction ||| K.kVMBusICFlagResponse),
       [Event.checkUserClient true, Event.performShutdown false,
        Event.writeInbandPacket ((pktData.setStatus K.kHyperVStatusSuccess).setFlags
          (K.kVMBusICFlagTransaction ||| K.kVMBusICFlagResponse)) pktDataLength false,
        Event.performShutdown true,
        Event.notifyUserClient .kHyperVUserClientNotificationTypePerformRestart]) := by
  rw [handlePacket_of_shutdown K E pktHeader pktHeaderLength pktData pktDataLength ht,
    handleShutdown_of_attached K E pktData.shutdown hs hE,
    performShutdown_of_restart K pktData.shutdown false hf,
    performShutdown_of_restart K pktData.shutdown true hf]
  simp [VMBusICMessageShutdown.setStatus]

/-- On every path the trace is: calls without transmission or notification, then the one
transmission of the final buffer, then the rest. -/
theorem handlePacket_shape (K : Decls) (E : Env) (pktHeader : List Nat)
    (pktHeaderLength : Nat) (pktData : VMBusICMessageShutdown) (pktDataLength : Nat) :
    ∃ P Q, (handlePacket K E pktHeader pktHeaderLength pktData pktDataLength).2
        = P ++ Event.writeInbandPacket
            (handlePacket K E pktHeader pktHeaderLength pktData pktDataLength).1
            pktDataLength false :: Q
      ∧ notifications P = [] ∧ responses P = [] ∧ responses Q = [] := by
  by_cases hn : pktData.header.type = K.kVMBusICMessageTypeNegotiate
  · rw [handlePacket_of_negotiate K E pktHeader pktHeaderLength pktData pktDataLength hn]
    exact ⟨[], [], rfl, rfl, rfl, rfl⟩
  · by_cases ht : pktData.header.type = K.kVMBusICMessageTypeShutdown
    · by_cases hs : sizeCheckPasses K pktData.shutdown
      · cases hE : E.checkUserClient
        · rw [handlePacket_shutdown_detached K E pktHeader pktHeaderLength pktData
            pktDataLength ht hs hE]
          exact ⟨[Event.checkUserClient false], [], rfl, rfl, rfl, rfl⟩
        · by_cases hr : isRecognized K pktData.shutdown.flags
          · rcases isRecognized_cases K _ hr with hf | hf
            · rw [handlePacket_shutdown_shutdown K E pktHeader pktHeaderLength pktData
                pktDataLength ht hs hE hf]
              exact ⟨[Event.checkUserClient true, Event.performShutdown false], _, rfl, rfl,
                rfl, rfl⟩
            · rw [handlePacket_shutdown_restart K E pktHeader pktHeaderLength pktData
                pktDataLength ht hs hE hf]
              exact ⟨[Event.checkUserClient true, Event.performShutdown false], _, rfl, rfl,
                rfl, rfl⟩
          · rw [handlePacket_shutdown_unrecognized K E pktHeader pktHeaderLength pktData
              pktDataLength ht hs hE hr]
            exact ⟨[Event.checkUserClient true, Event.performShutdown false], [], rfl, rfl,
              rfl, rfl⟩
      · rw [handlePacket_shutdown_short K E pktHeader pktHeaderLength pktData
          pktDataLength ht hs]
        exact ⟨[], [], rfl, rfl, rfl, rfl⟩
    · rw [handlePacket_of_unknown K E pktHeader pktHeaderLength pktData pktDataLength hn ht]
      exact ⟨[], [], rfl, rfl, rfl, rfl⟩

theorem handlePacket_responses (K : Decls) (E : Env) (pktHeader : List Nat)
    (pktHeaderLength : Nat) (pktData : VMBusICMessageShutdown) (pktDataLength : Nat) :
    responses (handlePacket K E pktHeader pktHeaderLength pktData pktDataLength).2
        = [((handlePacket K E pktHeader pktHeaderLength pktData pktDataLength).1,
            pktDataLength)] := by
  obtain ⟨P, Q, hT, -, hP, hQ⟩ :=
    handlePacket_shape K E pktHeader pktHeaderLength pktData pktDataLength
  rw [hT]
  unfold responses at hP hQ ⊢
  rw [List.filterMap_append, List.filterMap_cons, hP]
  simp [hQ]

theorem handlePacket_flags (K : Decls) (E : Env) (pktHeader : List Nat)
    (pktHeaderLength : Nat) (pktData : VMBusICMessageShutdown) (pktDataLength : Nat) :
    (handlePacket K E pktHeader pktHeaderLength pktData pktDataLength).1.header.flags
        = K.kVMBusICFlagTransaction ||| K.kVMBusICFlagResponse := by
  unfold handlePacket
  exact setFlags_header_flags _ _

/-- If no notification occurs before an event `w` that is not a notification, then every
notification of the trace has `w` strictly before it. -/
theorem mem_before_notification (P Q before after : List Event) (w : Event)
    (a : HyperVUserClientNotificationType) (hP : notifications P = [])
    (hw : w ≠ Event.notifyUserClient a)
    (h : P ++ w :: Q = before ++ Event.notifyUserClient a :: after) : w ∈ before := by
  rcases List.append_eq_append_iff.mp h with ⟨m, hb, hm⟩ | ⟨m, hp, hm⟩
  · cases m with
    | nil =>
      simp only [List.nil_append, List.cons.injEq] at hm
      exact absurd hm.1 hw
    | cons x m =>
      simp only [List.cons_append, List.cons.injEq] at hm
      rw [hb, hm.1]
      simp
  · cases m with
    | nil =>
      simp only [List.nil_append, List.cons.injEq] at hm
      exact absurd hm.1.symm hw
    | cons x m =>
      simp only [List.cons_append, List.cons.injEq] at hm
      rw [hp, ← hm.1] at hP
      simp [notifications, List.filterMap_append] at hP

/-! ### The version selection -/

theorem negotiateVersion_first_match (supported offered : List VMBusICVersion)
    (h : ∃ v ∈ supported, v ∈ offered) :
    ∃ (i : Nat) (v : VMBusICVersion), supported[i]? = some v
      ∧ negotiateVersion supported offered = some v ∧ v ∈ offered
      ∧ ∀ (j : Nat) (w : VMBusICVersion), j < i → supported[j]? = some w → w ∉ offered := by
  induction supported with
  | nil => simp at h
  | cons x rest ih =>
    by_cases hx : x ∈ offered
    · refine ⟨0, x, by simp, ?_, hx, ?_⟩
      · simp [negotiateVersion, hx]
      · intro j w hj
        exact absurd hj (Nat.not_lt_zero j)
    · have h' : ∃ v ∈ rest, v ∈ offered := by
        obtain ⟨v, hv, hvo⟩ := h
        rcases List.mem_cons.mp hv with hvx | hvr
        · exact absurd (hvx ▸ hvo) hx
        · exact ⟨v, hvr, hvo⟩
      obtain ⟨i, v, hi, hsel, hvo, hmin⟩ := ih h'
      refine ⟨i + 1, v, by simpa using hi, ?_, hvo, ?_⟩
      · simp [negotiateVersion, hx, hsel]
      · intro j w hj hw
        cases j with
        | zero =>
          simp only [List.getElem?_cons_zero, Option.some.injEq] at hw
          exact hw ▸ hx
        | succ j =>
          simp only [List.getElem?_cons_succ] at hw
          exact hmin j w (Nat.lt_of_succ_lt_succ hj) hw

theorem negotiateVersion_sound (supported offered : List VMBusICVersion)
    (v : VMBusICVersion) (h : negotiateVersion supported offered = some v) :
    v ∈ supported ∧ v ∈ offered := by
  induction supported with
  | nil => simp [negotiateVersion] at h
  | cons x rest ih =>
    by_cases hx : x ∈ offered
    · simp only [negotiateVersion, if_pos hx, Option.some.injEq] at h
      exact ⟨by simp [h], h ▸ hx⟩
    · simp only [negotiateVersion, if_neg hx] at h
      exact ⟨List.mem_cons_of_mem _ (ih h).1, (ih h).2⟩

/-! ## Claims -/

/-- C1: for every inbound packet, whatever its type and contents and whatever the
consumer registry and the negotiator answer, `handlePacket` transmits exactly one
response through `writeInbandPacket`; the transmitted buffer is the buffer `handlePacket`
leaves, its header flags equal `Transaction | Response`, and the transmitted length is the
received `pktDataLength`. -/
theorem handlePacket_exactly_one_response (K : Decls) (E : Env) (pktHeader : List Nat)
    (pktHeaderLength : Nat) (pktData : VMBusICMessageShutdown) (pktDataLength : Nat) :
    responses (handlePacket K E pktHeader pktHeaderLength pktData pktDataLength).2
        = [((handlePacket K E pktHeader pktHeaderLength pktData pktDataLength).1,
            pktDataLength)]
    ∧ (handlePacket K E pktHeader pktHeaderLength pktData pktDataLength).1.header.flags
        = K.kVMBusICFlagTransaction ||| K.kVMBusICFlagResponse :=
  ⟨handlePacket_responses K E pktHeader pktHeaderLength pktData pktDataLength,
    handlePacket_flags K E pktHeader pktHeaderLength pktData pktDataLength⟩

/-- C2: in the calls `handlePacket` makes for any packet, every consumer notification
(`notifyUserClient`) has the transmission of the response (`writeInbandPacket`, with the
received length) strictly before it; and neither `handleShutdown` nor the dry run
`performShutdown (commit = false)` notifies the consumer. -/
theorem handlePacket_notifies_after_response (K : Decls) (E : Env) (pktHeader : List Nat)
    (pktHeaderLength : Nat) (pktData : VMBusICMessageShutdown) (pktDataLength : Nat) :
    (∀ (before after : List Event) (a : HyperVUserClientNotificationType),
      (handlePacket K E pktHeader pktHeaderLength pktData pktDataLength).2
          = before ++ Event.notifyUserClient a :: after →
        ∃ b, Event.writeInbandPacket b pktDataLength false ∈ before)
    ∧ (∀ d : VMBusICMessageShutdownData, notifications (handleShutdown K E d).2.2 = [])
    ∧ (∀ d : VMBusICMessageShutdownData, notifications (performShutdown K d false).2 = []) := by
  refine ⟨?_, fun d => (handleShutdown_quiet K E d).2, ?_⟩
  · intro before after a h
    obtain ⟨P, Q, hT, hP, -, -⟩ :=
      handlePacket_shape K E pktHeader pktHeaderLength pktData pktDataLength
    rw [hT] at h
    exact ⟨_, mem_before_notification P Q before after _ a hP (by simp) h⟩
  · intro d
    by_cases hr : isRecognized K d.flags
    · rcases isRecognized_cases K d.flags hr with h | h
      · rw [performShutdown_of_shutdown K d false h]; rfl
      · rw [performShutdown_of_restart K d false h]; rfl
    · rw [performShutdown_of_unrecognized K d false hr]; rfl

/-- Witness for C2: an admitted forced shutdown under `hvDecls`; the notification is the
last call and the transmission of the 28-byte response is among the calls before it. -/
theorem handlePacket_notifies_after_response_witness :
    ∃ b, Event.writeInbandPacket b 28 false ∈
      [Event.checkUserClient true, Event.performShutdown false,
        Event.writeInbandPacket
          ((handlePacket hvDecls attachedEnv [] 0 (shutdownRequest 12 1) 28).1) 28 false,
        Event.performShutdown true] :=
  (handlePacket_notifies_after_response hvDecls attachedEnv [] 0 (shutdownRequest 12 1) 28).1
    _ [] .kHyperVUserClientNotificationTypePerformShutdown (by decide)

/-- C3: for every inbound packet, `handlePacket` notifies the consumer if and only if the
type is `ShutdownRequest`, the size check of `handleShutdown` passes, the consumer registry
reports an attached agent and the shutdown flags are one of Shutdown, ShutdownForced,
Restart, RestartForced; it then sends exactly one notification, and for every other
packet it sends none. -/
theorem handlePacket_notifies_iff_admitted (K : Decls) (E : Env) (pktHeader : List Nat)
    (pktHeaderLength : Nat) (pktData : VMBusICMessageShutdown) (pktDataLength : Nat) :
    (notifications (handlePacket K E pktHeader pktHeaderLength pktData pktDataLength).2 ≠ []
        ↔ shutdownAdmitted K E pktData)
    ∧ (notifications
        (handlePacket K E pktHeader pktHeaderLength pktData pktDataLength).2).length
        = if shutdownAdmitted K E pktData then 1 else 0 := by
  by_cases hA : shutdownAdmitted K E pktData
  · obtain ⟨ht, hs, hE, hr⟩ := hA
    rw [if_pos ⟨ht, hs, hE, hr⟩]
    rcases isRecognized_cases K _ hr with hf | hf
    · rw [handlePacket_shutdown_shutdown K E pktHeader pktHeaderLength pktData
        pktDataLength ht hs hE hf]
      simp [notifications, shutdownAdmitted, ht, hs, hE, hr]
    · rw [handlePacket_shutdown_restart K E pktHeader pktHeaderLength pktData
        pktDataLength ht hs hE hf]
      simp [notifications, shutdownAdmitted, ht, hs, hE, hr]
  · rw [if_neg hA]
    have hnone : notifications
        (handlePacket K E pktHeader pktHeaderLength pktData pktDataLength).2 = [] := by
      by_cases hn : pktData.header.type = K.kVMBusICMessageTypeNegotiate
      · rw [handlePacket_of_negotiate K E pktHeader pktHeaderLength pktData pktDataLength hn]
        rfl
      · by_cases ht : pktData.header.type = K.kVMBusICMessageTypeShutdown
        · by_cases hs : sizeCheckPasses K pktData.shutdown
          · by_cases hE : E.checkUserClient = true
            · have hr : ¬ isRecognized K pktData.shutdown.flags :=
                fun hr => hA ⟨ht, hs, hE, hr⟩
              rw [handlePacket_shutdown_unrecognized K E pktHeader pktHeaderLength pktData
                pktDataLength ht hs hE hr]
              rfl
            · rw [handlePacket_shutdown_detached K E pktHeader pktHeaderLength pktData
                pktDataLength ht hs (Bool.eq_false_iff.mpr hE)]
              rfl
          · rw [handlePacket_shutdown_short K E pktHeader pktHeaderLength pktData
              pktDataLength ht hs]
            rfl
        · rw [handlePacket_of_unknown K E pktHeader pktHeaderLength pktData pktDataLength
            hn ht]
          rfl
    rw [hnone]
    simp [hA]

/-- C4: for every shutdown request that passes the size check while a consumer is
attached: with flags Shutdown or ShutdownForced the one response carries status Success and
the consumer is notified once, with `PerformShutdown`; with flags Restart or RestartForced
the one response carries status Success and the consumer is notified once, with
`PerformRestart`. -/
theorem handlePacket_admitted_shutdown_or_restart (K : Decls) (E : Env)
    (pktHeader : List Nat) (pktHeaderLength : Nat) (pktData : VMBusICMessageShutdown)
    (pktDataLength : Nat)
    (ht : pktData.header.type = K.kVMBusICMessageTypeShutdown)
    (hs : sizeCheckPasses K pktData.shutdown) (hE : E.checkUserClient = true) :
    ((pktData.shutdown.flags = K.kVMBusICShutdownFlagsShutdown
        ∨ pktData.shutdown.flags = K.kVMBusICShutdownFlagsShutdownForced) →
      responseStatuses (handlePacket K E pktHeader pktHeaderLength pktData pktDataLength).2
          = [K.kHyperVStatusSuccess]
      ∧ notifications (handlePacket K E pktHeader pktHeaderLength pktData pktDataLength).2
          = [.kHyperVUserClientNotificationTypePerformShutdown])
    ∧ ((pktData.shutdown.flags = K.kVMBusICShutdownFlagsRestart
        ∨ pktData.shutdown.flags = K.kVMBusICShutdownFlagsRestartForced) →
      responseStatuses (handlePacket K E pktHeader pktHeaderLength pktData pktDataLength).2
          = [K.kHyperVStatusSuccess]
      ∧ notifications (handlePacket K E pktHeader pktHeaderLength pktData pktDataLength).2
          = [.kHyperVUserClientNotificationTypePerformRestart]) := by
  constructor
  · intro hf
    rw [handlePacket_shutdown_shutdown K E pktHeader pktHeaderLength pktData
      pktDataLength ht hs hE hf]
    exact ⟨rfl, rfl⟩
  · intro hf
    rw [handlePacket_shutdown_restart K E pktHeader pktHeaderLength pktData
      pktDataLength ht hs hE hf]
    exact ⟨rfl, rfl⟩

/-- Witness for C4: flags = ShutdownForced (1) under `hvDecls`, consumer attached: status
Success and one notification `PerformShutdown`. -/
theorem handlePacket_admitted_shutdown_or_restart_witness :
    responseStatuses (handlePacket hvDecls attachedEnv [] 0 (shutdownRequest 12 1) 28).2
        = [hvDecls.kHyperVStatusSuccess]
    ∧ notifications (handlePacket hvDecls attachedEnv [] 0 (shutdownRequest 12 1) 28).2
        = [.kHyperVUserClientNotificationTypePerformShutdown] :=
  (handlePacket_admitted_shutdown_or_restart hvDecls attachedEnv [] 0 (shutdownRequest 12 1)
    28 rfl (by decide) rfl).1 (Or.inr rfl)

/-- C5: for every shutdown request that passes the size check while the consumer
registry reports no attached agent, whatever its shutdown flags: `handleShutdown` returns
false and leaves status Fail, `performShutdown` is entered neither as dry run nor as commit,
nothing is notified; and the one response `handlePacket` transmits carries status Fail. -/
theorem handlePacket_detached_rejects (K : Decls) (E : Env) (pktHeader : List Nat)
    (pktHeaderLength : Nat) (pktData : VMBusICMessageShutdown) (pktDataLength : Nat)
    (ht : pktData.header.type = K.kVMBusICMessageTypeShutdown)
    (hs : sizeCheckPasses K pktData.shutdown) (hE : E.checkUserClient = false) :
    (handleShutdown K E pktData.shutdown).1 = false
    ∧ (handleShutdown K E pktData.shutdown).2.1.header.status = K.kHyperVStatusFail
    ∧ responseStatuses (handlePacket K E pktHeader pktHeaderLength pktData pktDataLength).2
        = [K.kHyperVStatusFail]
    ∧ executorCalls (handlePacket K E pktHeader pktHeaderLength pktData pktDataLength).2 = []
    ∧ notifications (handlePacket K E pktHeader pktHeaderLength pktData pktDataLength).2
        = [] := by
  rw [handlePacket_shutdown_detached K E pktHeader pktHeaderLength pktData pktDataLength
    ht hs hE, handleShutdown_of_detached K E pktData.shutdown hs hE]
  exact ⟨rfl, rfl, rfl, rfl, rfl⟩

/-- Witness for C5: a well-formed shutdown request (flags Shutdown) under `hvDecls` with no
consumer attached. -/
theorem handlePacket_detached_rejects_witness :
    (handleShutdown hvDecls detachedEnv (shutdownRequest 12 0).shutdown).1 = false
    ∧ (handleShutdown hvDecls detachedEnv (shutdownRequest 12 0).shutdown).2.1.header.status
        = hvDecls.kHyperVStatusFail
    ∧ responseStatuses (handlePacket hvDecls detachedEnv [] 0 (shutdownRequest 12 0) 28).2
        = [hvDecls.kHyperVStatusFail]
    ∧ executorCalls (handlePacket hvDecls detachedEnv [] 0 (shutdownRequest 12 0) 28).2 = []
    ∧ notifications (handlePacket hvDecls detachedEnv [] 0 (shutdownRequest 12 0) 28).2 = [] :=
  handlePacket_detached_rejects hvDecls detachedEnv [] 0 (shutdownRequest 12 0) 28 rfl
    (by decide) rfl

/-- C6: for every shutdown request that passes the size check and whose shutdown flags
are none of Shutdown, ShutdownForced, Restart, RestartForced, the one response carries
status Fail and no notification is sent, whether or not a consumer is attached. -/
theorem handlePacket_unrecognized_flags_rejected (K : Decls) (E : Env)
    (pktHeader : List Nat) (pktHeaderLength : Nat) (pktData : VMBusICMessageShutdown)
    (pktDataLength : Nat)
    (ht : pktData.header.type = K.kVMBusICMessageTypeShutdown)
    (hs : sizeCheckPasses K pktData.shutdown)
    (hr : ¬ isRecognized K pktData.shutdown.flags) :
    responseStatuses (handlePacket K E pktHeader pktHeaderLength pktData pktDataLength).2
        = [K.kHyperVStatusFail]
    ∧ notifications (handlePacket K E pktHeader pktHeaderLength pktData pktDataLength).2
        = [] := by
  by_cases hE : E.checkUserClient = true
  · rw [handlePacket_shutdown_unrecognized K E pktHeader pktHeaderLength pktData
      pktDataLength ht hs hE hr]
    exact ⟨rfl, rfl⟩
  · rw [handlePacket_shutdown_detached K E pktHeader pktHeaderLength pktData
      pktDataLength ht hs (Bool.eq_false_iff.mpr hE)]
    exact ⟨rfl, rfl⟩

/-- Witness for C6: flags = 0xFFFF under `hvDecls` with a consumer attached: status Fail,
no notification. -/
theorem handlePacket_unrecognized_flags_rejected_witness :
    responseStatuses (handlePacket hvDecls attachedEnv [] 0 (shutdownRequest 12 0xFFFF) 28).2
        = [hvDecls.kHyperVStatusFail]
    ∧ notifications (handlePacket hvDecls attachedEnv [] 0 (shutdownRequest 12 0xFFFF) 28).2
        = [] :=
  handlePacket_unrecognized_flags_rejected hvDecls attachedEnv [] 0
    (shutdownRequest 12 0xFFFF) 28 rfl (by decide) (by decide)

/-- C7 fails on the code: under `hvDecls`, the shutdown request with `dataSize = 0xFFFFFFFF`
has `packetSize = 15 < 16`, so the size check fails; `handleShutdown` returns early without
writing the status, and the one response carries the inbound status 0, which is the Success
code and not the Fail code. -/
theorem handlePacket_short_shutdown_keeps_inbound_status :
    ¬ sizeCheckPasses hvDecls (shutdownRequest 4294967295 0).shutdown
    ∧ (shutdownRequest 4294967295 0).header.type = hvDecls.kVMBusICMessageTypeShutdown
    ∧ responseStatuses
        (handlePacket hvDecls attachedEnv [] 0 (shutdownRequest 4294967295 0) 28).2
        = [hvDecls.kHyperVStatusSuccess]
    ∧ hvDecls.kHyperVStatusSuccess ≠ hvDecls.kHyperVStatusFail := by
  refine ⟨by decide, rfl, ?_, by decide⟩
  rw [handlePacket_shutdown_short hvDecls attachedEnv [] 0 (shutdownRequest 4294967295 0) 28
    rfl (by decide)]
  rfl

/-- C8: for every shutdown request whose `packetSize` is smaller than the offset of
`reason`, `handleShutdown` returns false without querying the consumer registry and without
entering `performShutdown`; and `handlePacket` queries nothing, enters `performShutdown`
never and sends no notification. -/
theorem handlePacket_short_shutdown_no_query (K : Decls) (E : Env) (pktHeader : List Nat)
    (pktHeaderLength : Nat) (pktData : VMBusICMessageShutdown) (pktDataLength : Nat)
    (ht : pktData.header.type = K.kVMBusICMessageTypeShutdown)
    (hs : (pktData.shutdown.header.dataSize + K.sizeofHeader) % 2 ^ 32 < K.offsetofReason) :
    (handleShutdown K E pktData.shutdown).1 = false
    ∧ registryQueries (handleShutdown K E pktData.shutdown).2.2 = []
    ∧ executorCalls (handleShutdown K E pktData.shutdown).2.2 = []
    ∧ registryQueries (handlePacket K E pktHeader pktHeaderLength pktData pktDataLength).2
        = []
    ∧ executorCalls (handlePacket K E pktHeader pktHeaderLength pktData pktDataLength).2 = []
    ∧ notifications (handlePacket K E pktHeader pktHeaderLength pktData pktDataLength).2
        = [] := by
  have hs' : ¬ sizeCheckPasses K pktData.shutdown := fun h => h hs
  rw [handlePacket_shutdown_short K E pktHeader pktHeaderLength pktData pktDataLength
    ht hs', handleShutdown_of_short K E pktData.shutdown hs']
  exact ⟨rfl, rfl, rfl, rfl, rfl, rfl⟩

/-- Witness for C8: `dataSize = 0xFFFFFFFF` under `hvDecls` (`packetSize = 15 < 16`), with a
consumer attached. -/
theorem handlePacket_short_shutdown_no_query_witness :
    (handleShutdown hvDecls attachedEnv (shutdownRequest 4294967295 0).shutdown).1 = false
    ∧ registryQueries
        (handleShutdown hvDecls attachedEnv (shutdownRequest 4294967295 0).shutdown).2.2 = []
    ∧ executorCalls
        (handleShutdown hvDecls attachedEnv (shutdownRequest 4294967295 0).shutdown).2.2 = []
    ∧ registryQueries
        (handlePacket hvDecls attachedEnv [] 0 (shutdownRequest 4294967295 0) 28).2 = []
    ∧ executorCalls
        (handlePacket hvDecls attachedEnv [] 0 (shutdownRequest 4294967295 0) 28).2 = []
    ∧ notifications
        (handlePacket hvDecls attachedEnv [] 0 (shutdownRequest 4294967295 0) 28).2 = [] :=
  handlePacket_short_shutdown_no_query hvDecls attachedEnv [] 0
    (shutdownRequest 4294967295 0) 28 rfl (by decide)

/-- C9 as stated fails: under `hvDecls`, with a declared length of 12 bytes (less than the
16-byte header), a buffer that holds a well-formed shutdown request is answered with status
Success, not Fail, and the consumer is queried and notified. -/
theorem handlePacket_short_buffer_counterexample :
    12 < hvDecls.sizeofHeader
    ∧ responses (handlePacket hvDecls attachedEnv [] 0 (shutdownRequest 12 0) 12).2
        = [((handlePacket hvDecls attachedEnv [] 0 (shutdownRequest 12 0) 12).1, 12)]
    ∧ responseStatuses (handlePacket hvDecls attachedEnv [] 0 (shutdownRequest 12 0) 12).2
        = [hvDecls.kHyperVStatusSuccess]
    ∧ responseStatuses (handlePacket hvDecls attachedEnv [] 0 (shutdownRequest 12 0) 12).2
        ≠ [hvDecls.kHyperVStatusFail]
    ∧ registryQueries (handlePacket hvDecls attachedEnv [] 0 (shutdownRequest 12 0) 12).2
        = [true]
    ∧ notifications (handlePacket hvDecls attachedEnv [] 0 (shutdownRequest 12 0) 12).2
        = [.kHyperVUserClientNotificationTypePerformShutdown] := by
  decide

/-- C9, amended: for every inbound buffer whose declared length `pktDataLength` is smaller
than the fixed message header, `handlePacket` transmits exactly one response, of length
`pktDataLength`; the buffer it leaves, the registry queries and the notifications are the
same as for any other declared length; and when the type found in the header is neither
Negotiate nor ShutdownRequest the status is Fail and nothing is queried or notified. -/
theorem handlePacket_short_buffer (K : Decls) (E : Env) (pktHeader : List Nat)
    (pktHeaderLength : Nat) (pktData : VMBusICMessageShutdown) (pktDataLength : Nat)
    (_hlen : pktDataLength < K.sizeofHeader) :
    responses (handlePacket K E pktHeader pktHeaderLength pktData pktDataLength).2
        = [((handlePacket K E pktHeader pktHeaderLength pktData pktDataLength).1,
            pktDataLength)]
    ∧ (∀ n : Nat,
        (handlePacket K E pktHeader pktHeaderLength pktData n).1
          = (handlePacket K E pktHeader pktHeaderLength pktData pktDataLength).1
        ∧ registryQueries (handlePacket K E pktHeader pktHeaderLength pktData n).2
          = registryQueries
              (handlePacket K E pktHeader pktHeaderLength pktData pktDataLength).2
        ∧ notifications (handlePacket K E pktHeader pktHeaderLength pktData n).2
          = notifications
              (handlePacket K E pktHeader pktHeaderLength pktData pktDataLength).2)
    ∧ (pktData.header.type ≠ K.kVMBusICMessageTypeNegotiate →
        pktData.header.type ≠ K.kVMBusICMessageTypeShutdown →
        responseStatuses
            (handlePacket K E pktHeader pktHeaderLength pktData pktDataLength).2
          = [K.kHyperVStatusFail]
        ∧ registryQueries
            (handlePacket K E pktHeader pktHeaderLength pktData pktDataLength).2 = []
        ∧ notifications
            (handlePacket K E pktHeader pktHeaderLength pktData pktDataLength).2 = []) := by
  refine ⟨handlePacket_responses K E pktHeader pktHeaderLength pktData pktDataLength,
    fun n => ⟨rfl, ?_, ?_⟩, ?_⟩
  · unfold handlePacket
    simp [registryQueries, List.filterMap_append]
  · unfold handlePacket
    simp [notifications, List.filterMap_append]
  · intro hn ht
    rw [handlePacket_of_unknown K E pktHeader pktHeaderLength pktData pktDataLength hn ht]
    exact ⟨rfl, rfl, rfl⟩

/-- Witness for C9, amended: the unknown-type packet under `hvDecls` with a declared length
of 12 bytes. -/
theorem handlePacket_short_buffer_witness :
    responses (handlePacket hvDecls attachedEnv [] 0 unknownTypePacket 12).2
        = [((handlePacket hvDecls attachedEnv [] 0 unknownTypePacket 12).1, 12)]
    ∧ responseStatuses (handlePacket hvDecls attachedEnv [] 0 unknownTypePacket 12).2
        = [hvDecls.kHyperVStatusFail] :=
  ⟨(handlePacket_short_buffer hvDecls attachedEnv [] 0 unknownTypePacket 12 (by decide)).1,
    ((handlePacket_short_buffer hvDecls attachedEnv [] 0 unknownTypePacket 12
      (by decide)).2.2 (by decide) (by decide)).1⟩

/-- C10: for every inbound packet whose header type is neither Negotiate nor
ShutdownRequest, the one response carries status Fail and the type code of the request, the
consumer registry is not queried and no notification is sent. -/
theorem handlePacket_unknown_type_rejected (K : Decls) (E : Env) (pktHeader : List Nat)
    (pktHeaderLength : Nat) (pktData : VMBusICMessageShutdown) (pktDataLength : Nat)
    (hn : pktData.header.type ≠ K.kVMBusICMessageTypeNegotiate)
    (ht : pktData.header.type ≠ K.kVMBusICMessageTypeShutdown) :
    responseStatuses (handlePacket K E pktHeader pktHeaderLength pktData pktDataLength).2
        = [K.kHyperVStatusFail]
    ∧ responseTypes (handlePacket K E pktHeader pktHeaderLength pktData pktDataLength).2
        = [pktData.header.type]
    ∧ registryQueries (handlePacket K E pktHeader pktHeaderLength pktData pktDataLength).2
        = []
    ∧ notifications (handlePacket K E pktHeader pktHeaderLength pktData pktDataLength).2
        = [] := by
  rw [handlePacket_of_unknown K E pktHeader pktHeaderLength pktData pktDataLength hn ht]
  exact ⟨rfl, rfl, rfl, rfl⟩

/-- Witness for C10: type code 7 under `hvDecls`. -/
theorem handlePacket_unknown_type_rejected_witness :
    responseStatuses (handlePacket hvDecls attachedEnv [] 0 unknownTypePacket 28).2
        = [hvDecls.kHyperVStatusFail]
    ∧ responseTypes (handlePacket hvDecls attachedEnv [] 0 unknownTypePacket 28).2 = [7]
    ∧ registryQueries (handlePacket hvDecls attachedEnv [] 0 unknownTypePacket 28).2 = []
    ∧ notifications (handlePacket hvDecls attachedEnv [] 0 unknownTypePacket 28).2 = [] :=
  handlePacket_unknown_type_rejected hvDecls attachedEnv [] 0 unknownTypePacket 28
    (by decide) (by decide)

/-- C11: for every Negotiate packet for which the negotiator, run over `shutdownVersions`,
reports failure, `handlePacket` still transmits exactly one response, of the received
length; that response carries status Fail, the consumer registry is not queried and no
notification is sent. -/
theorem handlePacket_failed_negotiation (K : Decls) (E : Env) (pktHeader : List Nat)
    (pktHeaderLength : Nat) (pktData : VMBusICMessageShutdown) (pktDataLength : Nat)
    (ht : pktData.header.type = K.kVMBusICMessageTypeNegotiate)
    (hf : (E.processNegotiationResponse pktData shutdownVersions
      shutdownVersions.length).1 = false) :
    responses (handlePacket K E pktHeader pktHeaderLength pktData pktDataLength).2
        = [((handlePacket K E pktHeader pktHeaderLength pktData pktDataLength).1,
            pktDataLength)]
    ∧ responseStatuses (handlePacket K E pktHeader pktHeaderLength pktData pktDataLength).2
        = [K.kHyperVStatusFail]
    ∧ registryQueries (handlePacket K E pktHeader pktHeaderLength pktData pktDataLength).2
        = []
    ∧ notifications (handlePacket K E pktHeader pktHeaderLength pktData pktDataLength).2
        = [] := by
  rw [handlePacket_of_negotiate K E pktHeader pktHeaderLength pktData pktDataLength ht, hf]
  exact ⟨rfl, rfl, rfl, rfl⟩

/-- Witness for C11: the negotiate packet under `hvDecls` with a negotiator that reports
failure. -/
theorem handlePacket_failed_negotiation_witness :
    responses (handlePacket hvDecls attachedEnv [] 0 negotiatePacket 28).2
        = [((handlePacket hvDecls attachedEnv [] 0 negotiatePacket 28).1, 28)]
    ∧ responseStatuses (handlePacket hvDecls attachedEnv [] 0 negotiatePacket 28).2
        = [hvDecls.kHyperVStatusFail]
    ∧ registryQueries (handlePacket hvDecls attachedEnv [] 0 negotiatePacket 28).2 = []
    ∧ notifications (handlePacket hvDecls attachedEnv [] 0 negotiatePacket 28).2 = [] :=
  handlePacket_failed_negotiation hvDecls attachedEnv [] 0 negotiatePacket 28 rfl rfl

/-- C12: for every set of offered versions that contains at least one entry of
`shutdownVersions` = [v3.2, v3.1, v3.0, v1.0], the selection picks an entry of the local
list that is offered and has no offered entry before it in list order; and whatever is
offered, a selected version is always listed and offered. -/
theorem negotiateVersion_selects_first_listed (offered : List VMBusICVersion)
    (h : ∃ v ∈ shutdownVersions, v ∈ offered) :
    (∃ (i : Nat) (v : VMBusICVersion), shutdownVersions[i]? = some v
      ∧ negotiateVersion shutdownVersions offered = some v ∧ v ∈ offered
      ∧ ∀ (j : Nat) (w : VMBusICVersion), j < i → shutdownVersions[j]? = some w →
          w ∉ offered)
    ∧ ∀ v : VMBusICVersion, negotiateVersion shutdownVersions offered = some v →
        v ∈ shutdownVersions ∧ v ∈ offered :=
  ⟨negotiateVersion_first_match shutdownVersions offered h,
    fun v hv => negotiateVersion_sound shutdownVersions offered v hv⟩

/-- Witness for C12: offered {v1.0, v3.0} selects v3.0. -/
theorem negotiateVersion_selects_first_listed_witness :
    negotiateVersion shutdownVersions [⟨1, 0⟩, ⟨3, 0⟩] = some ⟨3, 0⟩
    ∧ ∃ (i : Nat) (v : VMBusICVersion), shutdownVersions[i]? = some v
      ∧ negotiateVersion shutdownVersions [⟨1, 0⟩, ⟨3, 0⟩] = some v
      ∧ v ∈ [(⟨1, 0⟩ : VMBusICVersion), ⟨3, 0⟩]
      ∧ ∀ (j : Nat) (w : VMBusICVersion), j < i → shutdownVersions[j]? = some w →
          w ∉ [(⟨1, 0⟩ : VMBusICVersion), ⟨3, 0⟩] :=
  ⟨by decide,
    (negotiateVersion_selects_first_listed [⟨1, 0⟩, ⟨3, 0⟩]
      ⟨⟨3, 0⟩, by decide, by decide⟩).1⟩

/-- C13: for every flags value and both values of `doShutdown` (commit), `performShutdown`
returns true if and only if the flags are one of Shutdown, ShutdownForced, Restart,
RestartForced, so the result is the same for both values of commit; it notifies the consumer
if and only if commit is true and the flags are recognized, with `PerformShutdown` for
Shutdown and ShutdownForced and `PerformRestart` for Restart and RestartForced; with commit
false it notifies nothing. -/
theorem performShutdown_result_and_notification (K : Decls)
    (shutdownData : VMBusICMessageShutdownData) (doShutdown : Bool) :
    ((performShutdown K shutdownData doShutdown).1 = true
        ↔ isRecognized K shutdownData.flags)
    ∧ (performShutdown K shutdownData true).1 = (performShutdown K shutdownData false).1
    ∧ (notifications (performShutdown K shutdownData doShutdown).2 ≠ []
        ↔ (doShutdown = true ∧ isRecognized K shutdownData.flags))
    ∧ ((shutdownData.flags = K.kVMBusICShutdownFlagsShutdown
          ∨ shutdownData.flags = K.kVMBusICShutdownFlagsShutdownForced) →
        notifications (performShutdown K shutdownData true).2
          = [.kHyperVUserClientNotificationTypePerformShutdown])
    ∧ ((shutdownData.flags = K.kVMBusICShutdownFlagsRestart
          ∨ shutdownData.flags = K.kVMBusICShutdownFlagsRestartForced) →
        notifications (performShutdown K shutdownData true).2
          = [.kHyperVUserClientNotificationTypePerformRestart])
    ∧ notifications (performShutdown K shutdownData false).2 = [] := by
  by_cases hr : isRecognized K shutdownData.flags
  · have hd := flags_distinct K
    rcases isRecognized_cases K _ hr with hf | hf
    · have hnr : ¬ (shutdownData.flags = K.kVMBusICShutdownFlagsRestart
          ∨ shutdownData.flags = K.kVMBusICShutdownFlagsRestartForced) := by
        rintro (h1 | h1) <;> rcases hf with h2 | h2 <;> rw [h1] at h2 <;>
          simp_all
      simp only [performShutdown_of_shutdown K shutdownData _ hf]
      refine ⟨by simp [hr], trivial, ?_, fun _ => rfl, fun h => absurd h hnr, rfl⟩
      cases doShutdown <;> simp [notifications, hr]
    · have hns : ¬ (shutdownData.flags = K.kVMBusICShutdownFlagsShutdown
          ∨ shutdownData.flags = K.kVMBusICShutdownFlagsShutdownForced) := by
        rintro (h1 | h1) <;> rcases hf with h2 | h2 <;> rw [h1] at h2 <;>
          simp_all
      simp only [performShutdown_of_restart K shutdownData _ hf]
      refine ⟨by simp [hr], trivial, ?_, fun h => absurd h hns, fun _ => rfl, rfl⟩
      cases doShutdown <;> simp [notifications, hr]
  · have hns : ¬ (shutdownData.flags = K.kVMBusICShutdownFlagsShutdown
        ∨ shutdownData.flags = K.kVMBusICShutdownFlagsShutdownForced) :=
      fun h => hr (by unfold isRecognized; tauto)
    have hnr : ¬ (shutdownData.flags = K.kVMBusICShutdownFlagsRestart
        ∨ shutdownData.flags = K.kVMBusICShutdownFlagsRestartForced) :=
      fun h => hr (by unfold isRecognized; tauto)
    simp only [performShutdown_of_unrecognized K shutdownData _ hr]
    refine ⟨by simp [hr], trivial, ?_, fun h => absurd h hns, fun h => absurd h hnr, rfl⟩
    simp [notifications, hr]

/-- Witness for C13: flags = RestartForced (3) under `hvDecls`, commit: one notification
`PerformRestart`. -/
theorem performShutdown_result_and_notification_witness :
    notifications (performShutdown hvDecls (shutdownRequest 12 3).shutdown true).2
        = [.kHyperVUserClientNotificationTypePerformRestart] :=
  (performShutdown_result_and_notification hvDecls (shutdownRequest 12 3).shutdown
    true).2.2.2.2.1 (Or.inr rfl)

/-- C14 fails on the code: under `hvDecls` the shutdown request with `dataSize = 0` has
`packetSize = 16`, which passes the size check of `handleShutdown` although it is smaller
than the offset 28 of the end of `flags`; the flags found in the buffer are read and acted
upon all the same (status Success, one notification `PerformShutdown`). -/
theorem handlePacket_header_only_shutdown_admitted :
    (shutdownRequest 0 0).header.type = hvDecls.kVMBusICMessageTypeShutdown
    ∧ sizeCheckPasses hvDecls (shutdownRequest 0 0).shutdown
    ∧ ((shutdownRequest 0 0).shutdown.header.dataSize + hvDecls.sizeofHeader) % 2 ^ 32 = 16
    ∧ offsetofFlagsEnd hvDecls = 28
    ∧ ¬ offsetofFlagsEnd hvDecls
        ≤ ((shutdownRequest 0 0).shutdown.header.dataSize + hvDecls.sizeofHeader) % 2 ^ 32
    ∧ responseStatuses (handlePacket hvDecls attachedEnv [] 0 (shutdownRequest 0 0) 16).2
        = [hvDecls.kHyperVStatusSuccess]
    ∧ notifications (handlePacket hvDecls attachedEnv [] 0 (shutdownRequest 0 0) 16).2
        = [.kHyperVUserClientNotificationTypePerformShutdown] := by
  decide

/-- C15: for every packet of type ShutdownRequest or of unknown type, the one transmitted
buffer is the received buffer with at most the header status and the header flags
rewritten: header type and dataSize, the payload fields reason, timeoutSeconds and flags
(and the bytes of the negotiate view) are unchanged; and when the size check of
`handleShutdown` fails, the transmitted buffer is the received buffer with only the header
flags rewritten. -/
theorem handlePacket_frame (K : Decls) (E : Env) (pktHeader : List Nat)
    (pktHeaderLength : Nat) (pktData : VMBusICMessageShutdown) (pktDataLength : Nat)
    (hn : pktData.header.type ≠ K.kVMBusICMessageTypeNegotiate) :
    responses (handlePacket K E pktHeader pktHeaderLength pktData pktDataLength).2
        = [((handlePacket K E pktHeader pktHeaderLength pktData pktDataLength).1,
            pktDataLength)]
    ∧ (handlePacket K E pktHeader pktHeaderLength pktData pktDataLength).1
        = (pktData.setStatus
            (handlePacket K E pktHeader pktHeaderLength pktData
              pktDataLength).1.header.status).setFlags
            (K.kVMBusICFlagTransaction ||| K.kVMBusICFlagResponse)
    ∧ (handlePacket K E pktHeader pktHeaderLength pktData pktDataLength).1.header.type
        = pktData.header.type
    ∧ (handlePacket K E pktHeader pktHeaderLength pktData pktDataLength).1.header.dataSize
        = pktData.header.dataSize
    ∧ (handlePacket K E pktHeader pktHeaderLength pktData pktDataLength).1.shutdown.reason
        = pktData.shutdown.reason
    ∧ (handlePacket K E pktHeader pktHeaderLength pktData
        pktDataLength).1.shutdown.timeoutSeconds = pktData.shutdown.timeoutSeconds
    ∧ (handlePacket K E pktHeader pktHeaderLength pktData pktDataLength).1.shutdown.flags
        = pktData.shutdown.flags
    ∧ (handlePacket K E pktHeader pktHeaderLength pktData pktDataLength).1.negotiate
        = pktData.negotiate
    ∧ (pktData.header.type = K.kVMBusICMessageTypeShutdown →
        ¬ sizeCheckPasses K pktData.shutdown →
        (handlePacket K E pktHeader pktHeaderLength pktData pktDataLength).1
          = pktData.setFlags (K.kVMBusICFlagTransaction ||| K.kVMBusICFlagResponse)) := by
  refine ⟨handlePacket_responses K E pktHeader pktHeaderLength pktData pktDataLength, ?_⟩
  by_cases ht : pktData.header.type = K.kVMBusICMessageTypeShutdown
  · by_cases hs : sizeCheckPasses K pktData.shutdown
    · by_cases hE : E.checkUserClient = true
      · by_cases hr : isRecognized K pktData.shutdown.flags
        · rcases isRecognized_cases K _ hr with hf | hf
          · rw [handlePacket_shutdown_shutdown K E pktHeader pktHeaderLength pktData
              pktDataLength ht hs hE hf]
            exact ⟨rfl, rfl, rfl, rfl, rfl, rfl, rfl, fun _ h => absurd hs h⟩
          · rw [handlePacket_shutdown_restart K E pktHeader pktHeaderLength pktData
              pktDataLength ht hs hE hf]
            exact ⟨rfl, rfl, rfl, rfl, rfl, rfl, rfl, fun _ h => absurd hs h⟩
        · rw [handlePacket_shutdown_unrecognized K E pktHeader pktHeaderLength pktData
            pktDataLength ht hs hE hr]
          exact ⟨rfl, rfl, rfl, rfl, rfl, rfl, rfl, fun _ h => absurd hs h⟩
      · rw [handlePacket_shutdown_detached K E pktHeader pktHeaderLength pktData
          pktDataLength ht hs (Bool.eq_false_iff.mpr hE)]
        exact ⟨rfl, rfl, rfl, rfl, rfl, rfl, rfl, fun _ h => absurd hs h⟩
    · rw [handlePacket_shutdown_short K E pktHeader pktHeaderLength pktData
        pktDataLength ht hs]
      exact ⟨rfl, rfl, rfl, rfl, rfl, rfl, rfl, fun _ _ => rfl⟩
  · rw [handlePacket_of_unknown K E pktHeader pktHeaderLength pktData pktDataLength hn ht]
    exact ⟨rfl, rfl, rfl, rfl, rfl, rfl, rfl, fun h => absurd h ht⟩

/-- Witness for C15: a shutdown request under `hvDecls` whose size check fails
(`dataSize = 0xFFFFFFFF`): the transmitted buffer is the received one with only the header
flags rewritten. -/
theorem handlePacket_frame_witness :
    (handlePacket hvDecls attachedEnv [] 0 (shutdownRequest 4294967295 2) 28).1
      = (shutdownRequest 4294967295 2).setFlags
          (hvDecls.kVMBusICFlagTransaction ||| hvDecls.kVMBusICFlagResponse) :=
  (handlePacket_frame hvDecls attachedEnv [] 0 (shutdownRequest 4294967295 2) 28
    (by decide)).2.2.2.2.2.2.2.2 rfl (by decide)

/-- C16: with `dataSize` a 32-bit unsigned value and `reason` laid out immediately after
the header, the size check of `handleShutdown` (on `packetSize`, computed modulo 2^32)
rejects a request if and only if `dataSize + sizeof (header)` reaches 2^32, and exactly then
`handleShutdown` returns without making any call; in particular every request with
`dataSize ≤ 2^32 - 1 - sizeof (header)`, `dataSize = 0` included, passes the check. -/
theorem handleShutdown_size_check_wraps (K : Decls) (E : Env)
    (shutdownData : VMBusICMessageShutdownData)
    (h32 : shutdownData.header.dataSize < 2 ^ 32)
    (hoff : K.offsetofReason = K.sizeofHeader) :
    ((shutdownData.header.dataSize + K.sizeofHeader) % 2 ^ 32 < K.offsetofReason
        ↔ 2 ^ 32 ≤ shutdownData.header.dataSize + K.sizeofHeader)
    ∧ ((handleShutdown K E shutdownData).2.2 = []
        ↔ 2 ^ 32 ≤ shutdownData.header.dataSize + K.sizeofHeader)
    ∧ (K.sizeofHeader < 2 ^ 32 →
        shutdownData.header.dataSize ≤ 2 ^ 32 - 1 - K.sizeofHeader →
        sizeCheckPasses K shutdownData)
    ∧ (K.sizeofHeader < 2 ^ 32 → shutdownData.header.dataSize = 0 →
        sizeCheckPasses K shutdownData) := by
  have key : (shutdownData.header.dataSize + K.sizeofHeader) % 2 ^ 32 < K.offsetofReason
      ↔ 2 ^ 32 ≤ shutdownData.header.dataSize + K.sizeofHeader := by
    rw [hoff]
    constructor
    · intro h
      by_contra hlt
      rw [Nat.mod_eq_of_lt (Nat.lt_of_not_le hlt)] at h
      omega
    · intro h
      have hm := Nat.mod_add_div (shutdownData.header.dataSize + K.sizeofHeader) (2 ^ 32)
      have hq : 1 ≤ (shutdownData.header.dataSize + K.sizeofHeader) / 2 ^ 32 :=
        (Nat.one_le_div_iff (by norm_num)).mpr h
      have hmul : 2 ^ 32 * 1
          ≤ 2 ^ 32 * ((shutdownData.header.dataSize + K.sizeofHeader) / 2 ^ 32) :=
        Nat.mul_le_mul_left _ hq
      omega
  refine ⟨key, ?_, ?_, ?_⟩
  · rw [← key]
    constructor
    · intro h
      by_contra hp
      have hp' : sizeCheckPasses K shutdownData := hp
      by_cases hE : E.checkUserClient = true
      · rw [handleShutdown_of_attached K E shutdownData hp' hE] at h
        simp at h
      · rw [handleShutdown_of_detached K E shutdownData hp'
          (Bool.eq_false_iff.mpr hE)] at h
        simp at h
    · intro h
      have hp' : ¬ sizeCheckPasses K shutdownData := fun hp => hp h
      rw [handleShutdown_of_short K E shutdownData hp']
  · intro hH hle hlt
    have h2 := key.mp hlt
    omega
  · intro hH h0 hlt
    have h2 := key.mp hlt
    omega

/-- Witness for C16: `dataSize = 0` under `hvDecls` passes the size check. -/
theorem handleShutdown_size_check_wraps_witness :
    sizeCheckPasses hvDecls (shutdownRequest 0 0).shutdown :=
  (handleShutdown_size_check_wraps hvDecls attachedEnv (shutdownRequest 0 0).shutdown
    (by decide) rfl).2.2.2 (by decide) rfl

/-- C17: the table `shutdownVersions` has exactly four entries, v3.2, v3.1, v3.0 and v1.0
in that order; compared as 32-bit values with the major number in the high 16 bits, each
entry is greater than every later one, so the table is newest-first and has no duplicates. -/
theorem shutdownVersions_newest_first :
    shutdownVersions = [⟨3, 2⟩, ⟨3, 1⟩, ⟨3, 0⟩, ⟨1, 0⟩]
    ∧ shutdownVersions.length = 4
    ∧ (shutdownVersions.map VMBusICVersion.toUInt32).Pairwise (fun a b => b < a)
    ∧ shutdownVersions.Nodup := by
  decide

end HyperVShutdown
